import Mathlib

/-!
USB host driver stack: a shallow embedding.

Embedding of `3.USB_Flash_Storage_Driver/usbFlashDrv.c` (probe, open, release,
disconnect, read, write and the two completion callbacks) and of the endpoint
scan of `2.USB_Interface_Driver/usbInterface.c`.

Kernel services (allocators, the USB core, the wait primitive, user copies) are
not part of the repository.  Their results are inputs of the embedded functions
(the `*_env` records), and the calls a function makes are returned as a log of
`kcall` values, in program order.
-/

namespace UsbFlashDrv

/-! ## errno values (asm-generic/errno-base.h, asm-generic/errno.h) -/

def ENOENT : Int := 2
def ENOMEM : Int := 12
def EACCES : Int := 13
def EFAULT : Int := 14
def ENODEV : Int := 19
def EINVAL : Int := 22
def EPIPE : Int := 32
def ECONNRESET : Int := 104
def ESHUTDOWN : Int := 108
def ERESTARTSYS : Int := 512

/-! ## Machine integer conversions -/

/-- Conversion of a `size_t` value to `int` (32 bit, two's complement), as in
`retval = dev->bulk_in_read_bytes`. -/
def int_of_size_t (n : Nat) : Int :=
  if n % 2 ^ 32 < 2 ^ 31 then ((n % 2 ^ 32 : Nat) : Int) else ((n % 2 ^ 32 : Nat) : Int) - 2 ^ 32

/-- Conversion of a `size_t` value to `ssize_t` (64 bit, two's complement), as in
`return dev->bulk_out_write_bytes`. -/
def ssize_t_of_size_t (n : Nat) : Int :=
  if n % 2 ^ 64 < 2 ^ 63 then ((n % 2 ^ 64 : Nat) : Int) else ((n % 2 ^ 64 : Nat) : Int) - 2 ^ 64

/-! ## Endpoint descriptors (linux/usb/ch9.h) -/

/-- The fields of `struct usb_endpoint_descriptor` the drivers read:
`bEndpointAddress` and `bmAttributes` are `__u8`, `wMaxPacketSize` is `__le16`. -/
structure usb_endpoint_descriptor where
  bEndpointAddress : Nat
  bmAttributes : Nat
  wMaxPacketSize : Nat
  deriving DecidableEq, Repr

/-- Modelled from the spec: the kernel helper `usb_endpoint_dir_in` of
linux/usb/ch9.h, which is not part of the repository (IN direction):
`(bEndpointAddress & USB_ENDPOINT_DIR_MASK) == USB_DIR_IN`, the mask and
`USB_DIR_IN` both being `0x80` (bit 7 set). -/
def usb_endpoint_dir_in (epd : usb_endpoint_descriptor) : Bool :=
  epd.bEndpointAddress % 256 / 128 == 1

/-- Modelled from the spec: the kernel helper `usb_endpoint_dir_out` of
linux/usb/ch9.h (OUT direction):
`(bEndpointAddress & USB_ENDPOINT_DIR_MASK) == USB_DIR_OUT` (bit 7 clear). -/
def usb_endpoint_dir_out (epd : usb_endpoint_descriptor) : Bool :=
  epd.bEndpointAddress % 256 / 128 == 0

/-- Modelled from the spec: the kernel helper `usb_endpoint_xfer_bulk` of
linux/usb/ch9.h (bulk transfer type):
`(bmAttributes & USB_ENDPOINT_XFERTYPE_MASK) == USB_ENDPOINT_XFER_BULK`, the
mask being `0x03` and bulk being `2`. -/
def usb_endpoint_xfer_bulk (epd : usb_endpoint_descriptor) : Bool :=
  epd.bmAttributes % 4 == 2

/-- Modelled from the spec: the kernel helper `usb_endpoint_is_bulk_in` of
linux/usb/ch9.h: bulk transfer type and IN direction. -/
def usb_endpoint_is_bulk_in (epd : usb_endpoint_descriptor) : Bool :=
  usb_endpoint_xfer_bulk epd && usb_endpoint_dir_in epd

/-- Modelled from the spec: the kernel helper `usb_endpoint_is_bulk_out` of
linux/usb/ch9.h: bulk transfer type and OUT direction. -/
def usb_endpoint_is_bulk_out (epd : usb_endpoint_descriptor) : Bool :=
  usb_endpoint_xfer_bulk epd && usb_endpoint_dir_out epd

/-! ## Reference counter (linux/kref.h) -/

/-- The two kernel implementations of `struct kref`: a plain atomic counter
(kernels before 4.11) and the saturating `refcount_t`. -/
inductive kref_flavour where
  | atomic
  | saturating
  deriving DecidableEq, Repr

/-- The value `REFCOUNT_SATURATED` (`INT_MIN / 2`). -/
def REFCOUNT_SATURATED : Int := -(2 ^ 30)

/-- Modelled from the spec: `kref_get` of linux/kref.h, which is not part of the
repository.  The spec describes the counter as an atomic integer incremented
by each holder; the saturating flavour pins the counter at `REFCOUNT_SATURATED`
when an increment starts from zero or from a negative value. -/
def kref_get (k : kref_flavour) (c : Int) : Int :=
  match k with
  | .atomic => c + 1
  | .saturating => if c ≤ 0 ∨ c + 1 < 0 then REFCOUNT_SATURATED else c + 1

/-- Modelled from the spec: `kref_put` of linux/kref.h, which is not part of the
repository.  The counter is decremented and the release function runs exactly
when the counter goes from one to zero (the boolean of the result); the
saturating flavour pins the counter when a decrement would go below zero. -/
def kref_put (k : kref_flavour) (c : Int) : Int × Bool :=
  if c = 1 then (0, true)
  else
    match k with
    | .atomic => (c - 1, false)
    | .saturating => if c < 0 ∨ c - 1 < 0 then (REFCOUNT_SATURATED, false) else (c - 1, false)

/-! ## Kernel calls recorded in the log -/

/-- Calls into kernel services, with the arguments that matter here. -/
inductive kcall where
  | kmalloc (size : Nat)
  | usb_alloc_urb
  | usb_free_urb
  | usb_alloc_coherent (size : Nat)
  | usb_free_coherent (size : Nat)
  | usb_fill_bulk_urb (dir_in : Bool) (endpoint : Nat) (length : Nat)
  | usb_submit_urb (dir_in : Bool) (length : Nat)
  | usb_unanchor_urb
  | wait_for_completion_interruptible
  | copy_to_user (n : Nat)
  | copy_from_user (n : Nat)
  deriving DecidableEq, Repr

/-! ## The private structure -/

/-- The driver's `struct driver_private`.  Pointers are options (`none` is NULL):
a URB pointer holds the handle the allocator returned, a buffer pointer holds
the bytes of the buffer; `kref` is the counter value; a `struct completion` is
its `done` counter. -/
structure driver_private where
  usb_dev : Bool
  usb_intf : Bool
  kref : Int
  bulk_in_urb : Option Nat
  bulk_in_completion : Nat
  bulk_in_endpointAddr : Nat
  bulk_in_buffer : Option (List Nat)
  bulk_in_max_size : Nat
  bulk_in_read_bytes : Nat
  bulk_in_errors : Int
  bulk_out_urb : Option Nat
  bulk_out_completion : Nat
  bulk_out_endpointAddr : Nat
  bulk_out_buffer : Option (List Nat)
  bulk_out_max_size : Nat
  bulk_out_write_bytes : Nat
  bulk_out_errors : Int
  deriving DecidableEq, Repr

/-- The structure as `kzalloc` returns it: every field zero. -/
def driver_private_zero : driver_private :=
  { usb_dev := false, usb_intf := false, kref := 0,
    bulk_in_urb := none, bulk_in_completion := 0, bulk_in_endpointAddr := 0,
    bulk_in_buffer := none, bulk_in_max_size := 0, bulk_in_read_bytes := 0,
    bulk_in_errors := 0,
    bulk_out_urb := none, bulk_out_completion := 0, bulk_out_endpointAddr := 0,
    bulk_out_buffer := none, bulk_out_max_size := 0, bulk_out_write_bytes := 0,
    bulk_out_errors := 0 }

/-- The `struct usb_interface` fields the driver touches: the minor number
(`none` when no class device is registered), whether the interface data pointer
is set (it only ever points to the session), and the autosuspend usage count. -/
structure usb_interface where
  minor : Option Nat
  intfdata : Bool
  pm_usage_cnt : Int
  deriving DecidableEq, Repr

/-- The memory and core state around one interface: the interface, the session
object allocated by `drv_probe` (`none` before allocation), and how many times
`usb_cleanup` has run.  The object is kept after `usb_cleanup` has freed it, so
that later accesses through stale pointers stay defined in the model. -/
structure world where
  intf : usb_interface
  dev : Option driver_private
  usb_cleanup_runs : Nat
  deriving DecidableEq, Repr

/-- An interface with no driver bound. -/
def world_unbound : world :=
  { intf := { minor := none, intfdata := false, pm_usage_cnt := 0 }, dev := none,
    usb_cleanup_runs := 0 }

/-- The `private_data` pointer of `struct file`: set (to the session) or NULL. -/
structure file where
  private_data : Bool
  deriving DecidableEq, Repr

/-- The statement `kref_put(&dev->kref, usb_cleanup)` on the session of the
world: the counter is decremented and `usb_cleanup` runs when `kref_put` says
so.  Without a session object the statement is not modelled (NULL dereference)
and the world is returned as is. -/
def kref_put_usb_cleanup (k : kref_flavour) (w : world) : world :=
  match w.dev with
  | none => w
  | some d =>
    let r := kref_put k d.kref
    { w with dev := some { d with kref := r.1 },
             usb_cleanup_runs := if r.2 then w.usb_cleanup_runs + 1 else w.usb_cleanup_runs }

/-! ## Attach: `drv_probe` -/

/-- Results of the kernel services `drv_probe` calls: `kzalloc` of the private
structure, the `kmalloc` of the loop iteration with index `ii`, and
`usb_register_dev` with the minor it assigns on success. -/
structure probe_env where
  kzalloc_ok : Bool
  kmalloc_ok : Nat → Bool
  usb_register_dev_ret : Int
  minor : Nat

/-- The second `if` of the loop body: `if(!usb_endpoint_is_bulk_out(endpoint))`. -/
def drv_probe_out (endpoint : usb_endpoint_descriptor) (dev : driver_private) : driver_private :=
  if !usb_endpoint_is_bulk_out endpoint then
    { dev with bulk_out_endpointAddr := endpoint.bEndpointAddress }
  else dev

/-- The endpoint loop of `drv_probe`, from index `ii` over the remaining
endpoints.  `Except.error` is the early `return -ENOMEM` inside the loop and
carries the structure as it is at that point. -/
def drv_probe_loop (kmalloc_ok : Nat → Bool) :
    Nat → List usb_endpoint_descriptor → driver_private → Except driver_private driver_private
  | _, [], dev => .ok dev
  | ii, endpoint :: rest, dev =>
    if !usb_endpoint_is_bulk_in endpoint then
      let dev1 := { dev with bulk_in_endpointAddr := endpoint.bEndpointAddress,
                             bulk_in_max_size := endpoint.wMaxPacketSize }
      if kmalloc_ok ii then
        let dev2 := { dev1 with bulk_in_buffer := some (List.replicate dev1.bulk_in_max_size 0) }
        drv_probe_loop kmalloc_ok (ii + 1) rest (drv_probe_out endpoint dev2)
      else
        .error { dev1 with bulk_in_buffer := none }
    else
      drv_probe_loop kmalloc_ok (ii + 1) rest (drv_probe_out endpoint dev)

/-- The function `drv_probe`: return value and the world after the call. -/
def drv_probe (k : kref_flavour) (w : world) (endpoints : List usb_endpoint_descriptor)
    (env : probe_env) : Int × world :=
  if !env.kzalloc_ok then (-ENOMEM, w)
  else
    let dev0 := { driver_private_zero with usb_dev := true, usb_intf := true }
    match drv_probe_loop env.kmalloc_ok 0 endpoints dev0 with
    | .error dev => (-ENOMEM, kref_put_usb_cleanup k { w with dev := some dev })
    | .ok dev =>
      if !(dev.bulk_in_endpointAddr != 0 && dev.bulk_out_endpointAddr != 0) then
        (-ENOMEM, kref_put_usb_cleanup k { w with dev := some dev })
      else
        let w1 := { w with dev := some dev, intf := { w.intf with intfdata := true } }
        if env.usb_register_dev_ret != 0 then
          (-EINVAL, kref_put_usb_cleanup k { w1 with intf := { w1.intf with intfdata := false } })
        else
          (0, { w1 with intf := { w1.intf with minor := some env.minor } })

/-! ## Open, release, detach -/

/-- Kernel helper `usb_get_intfdata`: the session when the pointer is set. -/
def usb_get_intfdata (w : world) : Option driver_private :=
  if w.intf.intfdata then w.dev else none

/-- The function `drv_open` for the inode minor `subminor`.  `autopm_ret` is the
return value of `usb_autopm_get_interface` (zero when the usage counter was
incremented, a negative errno otherwise).  `usb_find_interface` finds the
interface exactly when it holds the minor `subminor`. -/
def drv_open (k : kref_flavour) (w : world) (f : file) (subminor : Nat) (autopm_ret : Int) :
    Int × world × file :=
  if w.intf.minor != some subminor then (-ENODEV, w, f)
  else
    match usb_get_intfdata w with
    | none => (-ENODEV, w, f)
    | some d =>
      let w1 := { w with dev := some { d with kref := kref_get k d.kref } }
      let w2 := if autopm_ret = 0 then
                  { w1 with intf := { w1.intf with pm_usage_cnt := w1.intf.pm_usage_cnt + 1 } }
                else w1
      if autopm_ret == 0 then (-ENODEV, w2, f)
      else (0, w2, { f with private_data := true })

/-- The function `drv_release`.  A file whose private data is set always has
a session object behind it; the branch without one is there for totality. -/
def drv_release (k : kref_flavour) (w : world) (f : file) : Int × world × file :=
  if !f.private_data then (-ENODEV, w, f)
  else
    match w.dev with
    | none => (-ENODEV, w, f)
    | some d =>
      let w1 := if d.usb_intf then
                  { w with intf := { w.intf with pm_usage_cnt := w.intf.pm_usage_cnt - 1 } }
                else w
      (0, kref_put_usb_cleanup k w1, f)

/-- The function `drv_disconnect`.  With a NULL interface data pointer the
`kref_put` would dereference NULL; that case is not modelled and the statement
is skipped. -/
def drv_disconnect (k : kref_flavour) (w : world) : world :=
  let w1 := { w with intf := { w.intf with intfdata := false } }
  let w2 := if w.intf.intfdata then kref_put_usb_cleanup k w1 else w1
  { w2 with intf := { w2.intf with minor := none } }

/-! ## Bulk-IN: `drv_read` and its completion callback -/

/-- What the transport hands to a completion callback: `urb->status`,
`urb->actual_length` and, for an inbound transfer, the bytes it placed at the
start of the transfer buffer. -/
structure urb_completion where
  status : Int
  actual_length : Nat
  data : List Nat
  deriving DecidableEq, Repr

/-- The function `drv_read_bulk_callback`; `complete` increments the `done`
counter of the completion. -/
def drv_read_bulk_callback (dev : driver_private) (status : Int) (actual_length : Nat) :
    driver_private :=
  let dev1 := if status != 0 then { dev with bulk_in_errors := status }
              else { dev with bulk_in_read_bytes := actual_length }
  { dev1 with bulk_in_completion := dev1.bulk_in_completion + 1 }

/-- The transport writes the received bytes over the start of the transfer
buffer `dev->bulk_in_buffer`. -/
def transport_receive (dev : driver_private) (data : List Nat) : driver_private :=
  { dev with bulk_in_buffer := dev.bulk_in_buffer.map (fun b => data ++ b.drop data.length) }

/-- Results of the kernel services one `drv_read` call uses: the URB allocator,
`kmalloc`, `usb_submit_urb`, the completion the transport delivers while the
caller waits (if any), whether a signal is pending for the caller, and whether
`copy_to_user` faults. -/
structure read_env where
  usb_alloc_urb : Option Nat
  kmalloc_ok : Bool
  usb_submit_urb_ret : Int
  completion : Option urb_completion
  signal_pending : Bool
  copy_to_user_fails : Bool
  deriving DecidableEq, Repr

/-- Outcome of `drv_read`: return value, private structure, the caller's
buffer, and the kernel calls made, in order. -/
structure read_result where
  retval : Int
  dev : driver_private
  buffer : List Nat
  calls : List kcall
  deriving DecidableEq, Repr

/-- The statement `copy_to_user(buffer, src, n)`: the first `n` bytes of the
source replace the start of the caller's buffer. -/
def copy_to_user (buffer : List Nat) (src : Option (List Nat)) (n : Nat) : List Nat :=
  let bytes := (src.getD []).take n
  bytes ++ buffer.drop bytes.length

/-- The function `drv_read` on the session `dev = file->private_data`.  The
transport delivers a completion only for an accepted submission.
`wait_for_completion_interruptible` consumes one `done` when there is one,
returns `-ERESTARTSYS` when there is none and a signal is pending, and blocks
for ever otherwise (`none`).  The call goes on after a failed `kmalloc`, as the
source does; a NULL `bulk_in_buffer` then stands for the empty buffer. -/
def drv_read (dev : driver_private) (buffer : List Nat) (count : Nat) (env : read_env) :
    Option read_result :=
  if dev.bulk_in_urb.isNone || count == 0 then
    some { retval := 0, dev := dev, buffer := buffer, calls := [] }
  else
    let dev1 := { dev with bulk_in_urb := env.usb_alloc_urb }
    if dev1.bulk_in_urb.isNone then
      some { retval := -ENOMEM, dev := dev1, buffer := buffer, calls := [kcall.usb_alloc_urb] }
    else
      let dev2 := { dev1 with bulk_in_buffer :=
                      if env.kmalloc_ok then some (List.replicate dev1.bulk_in_max_size 0) else none }
      let length := min dev2.bulk_in_max_size count
      let calls := [kcall.usb_alloc_urb, kcall.kmalloc dev1.bulk_in_max_size,
                    kcall.usb_fill_bulk_urb true dev2.bulk_in_endpointAddr length,
                    kcall.usb_submit_urb true length,
                    kcall.wait_for_completion_interruptible]
      let dev3 := match (if env.usb_submit_urb_ret = 0 then env.completion else none) with
                  | some c => drv_read_bulk_callback (transport_receive dev2 c.data)
                                c.status c.actual_length
                  | none => dev2
      if 0 < dev3.bulk_in_completion then
        let dev4 := { dev3 with bulk_in_completion := dev3.bulk_in_completion - 1 }
        if env.copy_to_user_fails then
          some { retval := -EFAULT, dev := dev4, buffer := buffer,
                 calls := calls ++ [kcall.copy_to_user dev4.bulk_in_read_bytes] }
        else
          some { retval := int_of_size_t dev4.bulk_in_read_bytes, dev := dev4,
                 buffer := copy_to_user buffer dev4.bulk_in_buffer dev4.bulk_in_read_bytes,
                 calls := calls ++ [kcall.copy_to_user dev4.bulk_in_read_bytes] }
      else if env.signal_pending then
        some { retval := -ERESTARTSYS, dev := dev3, buffer := buffer, calls := calls }
      else none

/-! ## Bulk-OUT: `drv_write` and its completion callback -/

/-- The function `drv_write_bulk_callback` for a URB of the given
`transfer_buffer_length`: the private structure after it and the calls made. -/
def drv_write_bulk_callback (dev : driver_private) (status : Int)
    (transfer_buffer_length : Nat) : driver_private × List kcall :=
  (if status != 0 then { dev with bulk_in_errors := status } else dev,
   [kcall.usb_free_coherent transfer_buffer_length])

/-- Results of the kernel services one `drv_write` call uses. -/
structure write_env where
  usb_alloc_urb : Option Nat
  usb_alloc_coherent_ok : Bool
  copy_from_user_fails : Bool
  usb_submit_urb_ret : Int
  deriving DecidableEq, Repr

/-- Outcome of `drv_write`: return value, private structure, and the kernel
calls made, in order. -/
structure write_result where
  retval : Int
  dev : driver_private
  calls : List kcall
  deriving DecidableEq, Repr

/-- The function `drv_write` on the session `dev = file->private_data`, with
the caller's bytes `user_buffer` and the length `count`. -/
def drv_write (dev : driver_private) (user_buffer : List Nat) (count : Nat) (env : write_env) :
    write_result :=
  let dev1 := { dev with bulk_out_write_bytes := count }
  if count == 0 then { retval := 0, dev := dev1, calls := [] }
  else
    let dev2 := { dev1 with bulk_out_urb := env.usb_alloc_urb }
    if dev2.bulk_out_urb.isNone then
      { retval := -ENOMEM, dev := dev2, calls := [kcall.usb_alloc_urb] }
    else
      let dev3 := { dev2 with bulk_out_buffer :=
                      if env.usb_alloc_coherent_ok
                      then some (List.replicate dev2.bulk_out_write_bytes 0) else none }
      let calls1 := [kcall.usb_alloc_urb, kcall.usb_alloc_coherent dev2.bulk_out_write_bytes]
      let cleanup := [kcall.usb_free_coherent dev3.bulk_out_write_bytes, kcall.usb_free_urb]
      if dev3.bulk_out_buffer.isNone then
        { retval := -ENOMEM, dev := dev3, calls := calls1 ++ cleanup }
      else
        let calls2 := calls1 ++ [kcall.copy_from_user dev3.bulk_out_write_bytes]
        if env.copy_from_user_fails then
          { retval := -EFAULT, dev := dev3, calls := calls2 ++ cleanup }
        else
          let bytes := user_buffer.take dev3.bulk_out_write_bytes
          let dev4 := { dev3 with bulk_out_buffer := some bytes }
          let calls3 := calls2 ++
            [kcall.usb_fill_bulk_urb false dev4.bulk_out_endpointAddr dev4.bulk_out_write_bytes,
             kcall.usb_submit_urb false dev4.bulk_out_write_bytes]
          if env.usb_submit_urb_ret != 0 then
            { retval := env.usb_submit_urb_ret, dev := dev4,
              calls := calls3 ++ [kcall.usb_unanchor_urb] ++ cleanup }
          else
            { retval := ssize_t_of_size_t dev4.bulk_out_write_bytes, dev := dev4,
              calls := calls3 ++ [kcall.usb_free_urb] }

end UsbFlashDrv

namespace UsbInterface

open UsbFlashDrv (usb_endpoint_descriptor usb_endpoint_is_bulk_in usb_endpoint_is_bulk_out)

/-- The `struct driver_private` of usbInterface.c. -/
structure driver_private where
  usb_dev : Bool
  usb_intf : Bool
  bulk_in_buffer : Option (List Nat)
  bulk_in_size : Nat
  bulk_in_endpointAddr : Nat
  bulk_out_endpointAddr : Nat
  kref : Int
  deriving DecidableEq, Repr

/-- The structure as `kzalloc` returns it, with the two pointers `usb_dev` and
`usb_intf` already stored (the statements before the loop). -/
def driver_private_init : driver_private :=
  { usb_dev := true, usb_intf := true, bulk_in_buffer := none, bulk_in_size := 0,
    bulk_in_endpointAddr := 0, bulk_out_endpointAddr := 0, kref := 0 }

/-- The second `if` of the loop body of `usb_interface_drv_probe`. -/
def usb_interface_drv_probe_out (endpoint : usb_endpoint_descriptor) (dev : driver_private) :
    driver_private :=
  if !usb_endpoint_is_bulk_out endpoint then
    { dev with bulk_out_endpointAddr := endpoint.bEndpointAddress }
  else dev

/-- The endpoint loop of `usb_interface_drv_probe`, from index `ii`;
`Except.error` is the early return inside the loop. -/
def usb_interface_drv_probe_loop (kmalloc_ok : Nat → Bool) :
    Nat → List usb_endpoint_descriptor → driver_private → Except driver_private driver_private
  | _, [], dev => .ok dev
  | ii, endpoint :: rest, dev =>
    if !usb_endpoint_is_bulk_in endpoint then
      let dev1 := { dev with bulk_in_endpointAddr := endpoint.bEndpointAddress,
                             bulk_in_size := endpoint.wMaxPacketSize }
      if kmalloc_ok ii then
        let dev2 := { dev1 with bulk_in_buffer := some (List.replicate dev1.bulk_in_size 0) }
        usb_interface_drv_probe_loop kmalloc_ok (ii + 1) rest
          (usb_interface_drv_probe_out endpoint dev2)
      else
        .error { dev1 with bulk_in_buffer := none }
    else
      usb_interface_drv_probe_loop kmalloc_ok (ii + 1) rest
        (usb_interface_drv_probe_out endpoint dev)

end UsbInterface

namespace UsbFlashDrv

/-! ## Sequences of file operations and detach -/

/-- A call through the character device: `fop_open` is `drv_open` on descriptor slot `fd` for
the inode minor `subminor`, with the result `usb_autopm_get_interface` will
give; `fop_release` is `drv_release` on slot `fd`. -/
inductive file_op where
  | fop_open (fd : Nat) (subminor : Nat) (autopm_ret : Int)
  | fop_release (fd : Nat)
  deriving DecidableEq, Repr

/-- A step of the attached driver: a file operation or the detach event. -/
inductive op where
  | file (o : file_op)
  | disconnect
  deriving DecidableEq, Repr

/-- The world together with the open-file table. -/
structure system where
  w : world
  files : Nat → file

/-- One file operation on the system. -/
def step_file (k : kref_flavour) (s : system) : file_op → system
  | .fop_open fd subminor autopm_ret =>
    let r := drv_open k s.w (s.files fd) subminor autopm_ret
    { w := r.2.1, files := Function.update s.files fd r.2.2 }
  | .fop_release fd =>
    let r := drv_release k s.w (s.files fd)
    { w := r.2.1, files := Function.update s.files fd r.2.2 }

/-- One step on the system. -/
def step (k : kref_flavour) (s : system) : op → system
  | .file o => step_file k s o
  | .disconnect => { s with w := drv_disconnect k s.w }

/-- A sequence of file operations, in order. -/
def run_file_ops (k : kref_flavour) (s : system) (ops : List file_op) : system :=
  ops.foldl (step_file k) s

/-- A sequence of steps, in order. -/
def run (k : kref_flavour) (s : system) (ops : List op) : system :=
  ops.foldl (step k) s

/-! ## Sequences of calls on an attached session -/

/-- A call that reaches the session: a lifecycle step, a `drv_read` or a
`drv_write` through the open file in slot `fd`, or a completion callback the
transport delivers outside any call (`urb->context` is the session). -/
inductive session_op where
  | sop_step (o : op)
  | sop_read (fd : Nat) (buffer : List Nat) (count : Nat) (env : read_env)
  | sop_write (fd : Nat) (user_buffer : List Nat) (count : Nat) (env : write_env)
  | sop_read_callback (c : urb_completion)
  | sop_write_callback (status : Int) (transfer_buffer_length : Nat)

/-- The session the read and write handlers of slot `fd` work on,
`file->private_data`. -/
def file_session (s : system) (fd : Nat) : Option driver_private :=
  if (s.files fd).private_data then s.w.dev else none

/-- One call on the system.  The handlers are only entered through a file
whose private data is set; a `drv_read` that blocks for ever gives no step. -/
def step_session (k : kref_flavour) (s : system) : session_op → system
  | .sop_step o => step k s o
  | .sop_read fd buffer count env =>
    match file_session s fd with
    | none => s
    | some d =>
      match drv_read d buffer count env with
      | some r => { s with w := { s.w with dev := some r.dev } }
      | none => s
  | .sop_write fd user_buffer count env =>
    match file_session s fd with
    | none => s
    | some d => { s with w := { s.w with dev := some (drv_write d user_buffer count env).dev } }
  | .sop_read_callback c =>
    match s.w.dev with
    | none => s
    | some d =>
      let d1 := drv_read_bulk_callback (transport_receive d c.data) c.status c.actual_length
      { s with w := { s.w with dev := some d1 } }
  | .sop_write_callback status transfer_buffer_length =>
    match s.w.dev with
    | none => s
    | some d =>
      let d1 := (drv_write_bulk_callback d status transfer_buffer_length).1
      { s with w := { s.w with dev := some d1 } }

/-- A sequence of calls, in order. -/
def run_session (k : kref_flavour) (s : system) (ops : List session_op) : system :=
  ops.foldl (step_session k) s

/-- The session object of the world, if there is one, has a NULL
`bulk_in_urb`. -/
def session_urb_null (w : world) : Bool :=
  match w.dev with
  | none => true
  | some d => d.bulk_in_urb.isNone

/-! ## Fixtures -/

/-- A bulk-IN endpoint, address `0x81`, max packet 64. -/
def ep_bulk_in : usb_endpoint_descriptor :=
  { bEndpointAddress := 0x81, bmAttributes := 2, wMaxPacketSize := 64 }

/-- A bulk-OUT endpoint, address `0x02`, max packet 64. -/
def ep_bulk_out : usb_endpoint_descriptor :=
  { bEndpointAddress := 0x02, bmAttributes := 2, wMaxPacketSize := 64 }

/-- An interrupt-IN endpoint, address `0x83`, max packet 8. -/
def ep_int_in : usb_endpoint_descriptor :=
  { bEndpointAddress := 0x83, bmAttributes := 3, wMaxPacketSize := 8 }

/-- Every allocation succeeds and the class device gets minor 0. -/
def probe_env_ok : probe_env :=
  { kzalloc_ok := true, kmalloc_ok := fun _ => true, usb_register_dev_ret := 0, minor := 0 }

/-- The world after attaching a device with one bulk-IN and one bulk-OUT
endpoint, both with max packet 64. -/
def world_attached (k : kref_flavour) : world :=
  (drv_probe k world_unbound [ep_bulk_in, ep_bulk_out] probe_env_ok).2

/-- No file is open. -/
def no_files : Nat → file := fun _ => { private_data := false }

/-- The 20 bytes of "The Eagle Has Landed" (userApp.c). -/
def eagle : List Nat :=
  [84, 104, 101, 32, 69, 97, 103, 108, 101, 32, 72, 97, 115, 32, 76, 97, 110, 100, 101, 100]

/-- The transport accepts the outbound submission. -/
def write_env_ok : write_env :=
  { usb_alloc_urb := some 1, usb_alloc_coherent_ok := true, copy_from_user_fails := false,
    usb_submit_urb_ret := 0 }

/-- A transport that completes the inbound transfer with the given status,
length and bytes; every allocation succeeds. -/
def read_env_completing (status : Int) (actual_length : Nat) (data : List Nat) : read_env :=
  { usb_alloc_urb := some 2, kmalloc_ok := true, usb_submit_urb_ret := 0,
    completion := some { status := status, actual_length := actual_length, data := data },
    signal_pending := false, copy_to_user_fails := false }

/-- A private structure whose `bulk_in_urb` pointer is set, with bulk-IN
endpoint `0x81` of max packet 64 and nothing read so far.  It is written by
hand: `drv_probe` never produces it. -/
def dev_reading : driver_private :=
  { driver_private_zero with usb_dev := true, usb_intf := true, bulk_in_urb := some 7,
                             bulk_in_endpointAddr := 0x81, bulk_in_max_size := 64 }

/-- The transport rejects the outbound submission with `-ENODEV`. -/
def write_env_reject : write_env :=
  { usb_alloc_urb := some 1, usb_alloc_coherent_ok := true, copy_from_user_fails := false,
    usb_submit_urb_ret := -ENODEV }

/-- A client session on the attached device: open, the 20 byte write and its
failed completion, a read with a 100 byte buffer, a stray inbound completion,
release. -/
def session_ops_demo : List session_op :=
  [.sop_step (.file (.fop_open 0 0 (-EACCES))),
   .sop_write 0 eagle 20 write_env_ok,
   .sop_write_callback (-EPIPE) 20,
   .sop_read 0 (List.replicate 100 0) 100 (read_env_completing 0 20 eagle),
   .sop_read_callback { status := 0, actual_length := 20, data := eagle },
   .sop_step (.file (.fop_release 0))]

/-- The session object after `session_ops_demo` on the attached device. -/
def dev_after_demo : driver_private :=
  ((run_session .atomic { w := world_attached .atomic, files := no_files }
      session_ops_demo).w.dev).getD driver_private_zero

end UsbFlashDrv

/-! # Theorems -/

namespace UsbFlashDrv

/-! ## Supporting lemmas -/

theorem kref_put_usb_cleanup_intf (k : kref_flavour) (w : world) :
    (kref_put_usb_cleanup k w).intf = w.intf := by
  unfold kref_put_usb_cleanup
  cases w.dev <;> rfl

theorem drv_open_minor (k : kref_flavour) (w : world) (f : file) (subminor : Nat)
    (autopm_ret : Int) :
    (drv_open k w f subminor autopm_ret).2.1.intf.minor = w.intf.minor := by
  unfold drv_open
  split
  · rfl
  · cases usb_get_intfdata w with
    | none => rfl
    | some d =>
      by_cases h : autopm_ret = 0 <;> simp [h]

theorem drv_release_minor (k : kref_flavour) (w : world) (f : file) :
    (drv_release k w f).2.1.intf.minor = w.intf.minor := by
  unfold drv_release
  split
  · rfl
  · cases w.dev with
    | none => rfl
    | some d =>
      simp only [kref_put_usb_cleanup_intf]
      split <;> rfl

theorem step_file_minor (k : kref_flavour) (s : system) (o : file_op) :
    (step_file k s o).w.intf.minor = s.w.intf.minor := by
  cases o with
  | fop_open fd subminor autopm_ret => exact drv_open_minor k s.w (s.files fd) subminor autopm_ret
  | fop_release fd => exact drv_release_minor k s.w (s.files fd)

theorem run_file_ops_minor (k : kref_flavour) (ops : List file_op) (s : system) :
    (run_file_ops k s ops).w.intf.minor = s.w.intf.minor := by
  induction ops generalizing s with
  | nil => rfl
  | cons o rest ih =>
    show (run_file_ops k (step_file k s o) rest).w.intf.minor = s.w.intf.minor
    rw [ih, step_file_minor]

theorem drv_disconnect_minor (k : kref_flavour) (w : world) :
    (drv_disconnect k w).intf.minor = none := rfl

theorem drv_open_unregistered (k : kref_flavour) (w : world) (f : file) (subminor : Nat)
    (autopm_ret : Int) (h : w.intf.minor = none) :
    drv_open k w f subminor autopm_ret = (-ENODEV, w, f) := by
  unfold drv_open
  simp [h]

theorem int_of_size_t_le (n : Nat) : int_of_size_t n ≤ (n : Int) := by
  unfold int_of_size_t
  have h := Nat.mod_le n (2 ^ 32)
  split <;> omega

/-- When the inbound transfer of this very call completes with status 0 and an
actual length within the submitted length, the value `drv_read` returns is at
most `min(dev->bulk_in_max_size, count)`. -/
theorem drv_read_bound_on_zero_status (dev : driver_private) (buffer : List Nat) (count : Nat)
    (env : read_env) (c : urb_completion) (r : read_result)
    (hsub : env.usb_submit_urb_ret = 0) (hc : env.completion = some c) (hst : c.status = 0)
    (hlen : c.actual_length ≤ min dev.bulk_in_max_size count)
    (h : drv_read dev buffer count env = some r) :
    r.retval ≤ ((min dev.bulk_in_max_size count : Nat) : Int) := by
  unfold drv_read at h
  by_cases hg : (dev.bulk_in_urb.isNone || count == 0) = true
  · rw [if_pos hg] at h
    cases h
    exact Int.ofNat_nonneg _
  · rw [if_neg hg] at h
    by_cases ha : env.usb_alloc_urb.isNone = true
    · simp only [ha, if_true, Option.some.injEq] at h
      subst h
      have : (0 : Int) ≤ ((min dev.bulk_in_max_size count : Nat) : Int) := Int.ofNat_nonneg _
      simp only [ENOMEM]
      omega
    · simp only [ha, hsub, hc, hst, drv_read_bulk_callback, transport_receive] at h
      simp [hst] at h
      by_cases hcp : env.copy_to_user_fails = true
      · simp [hcp] at h
        subst h
        have : (0 : Int) ≤ ((min dev.bulk_in_max_size count : Nat) : Int) := Int.ofNat_nonneg _
        simp only [EFAULT]
        omega
      · simp [hcp] at h
        subst h
        have := int_of_size_t_le c.actual_length
        simp only
        omega

/-! ## Endpoint scan -/

/-- C1: on the endpoint sequence bulk-IN `0x81` (max packet 64) followed by
bulk-OUT `0x02`, the scan of `drv_probe` and the scan of
`usb_interface_drv_probe` both record the bulk-OUT address `0x02` as the
bulk-IN address and the bulk-IN address `0x81` as the bulk-OUT address: the
tests `!usb_endpoint_is_bulk_in` and `!usb_endpoint_is_bulk_out` select the
endpoints that do not match, and nothing keeps the first match. -/
theorem drv_probe_scan_records_swapped_endpoints :
    usb_endpoint_is_bulk_in ep_bulk_in = true ∧ usb_endpoint_is_bulk_out ep_bulk_out = true ∧
    (drv_probe .atomic world_unbound [ep_bulk_in, ep_bulk_out] probe_env_ok).1 = 0 ∧
    (drv_probe .atomic world_unbound [ep_bulk_in, ep_bulk_out] probe_env_ok).2.dev.map
        (fun d => (d.bulk_in_endpointAddr, d.bulk_in_max_size, d.bulk_out_endpointAddr))
      = some (0x02, 64, 0x81) ∧
    (UsbInterface.usb_interface_drv_probe_loop (fun _ => true) 0 [ep_bulk_in, ep_bulk_out]
        UsbInterface.driver_private_init).toOption.map
        (fun d => (d.bulk_in_endpointAddr, d.bulk_in_size, d.bulk_out_endpointAddr))
      = some (0x02, 64, 0x81) := by
  decide

/-- C2: an interface whose only endpoint is an interrupt-IN endpoint has neither
a bulk-IN nor a bulk-OUT descriptor, yet `drv_probe` returns 0, sets the
interface data pointer to the session and registers the class device. -/
theorem drv_probe_accepts_interrupt_only_interface :
    usb_endpoint_is_bulk_in ep_int_in = false ∧ usb_endpoint_is_bulk_out ep_int_in = false ∧
    (∀ k : kref_flavour,
      (drv_probe k world_unbound [ep_int_in] probe_env_ok).1 = 0 ∧
      (drv_probe k world_unbound [ep_int_in] probe_env_ok).2.intf.intfdata = true ∧
      (drv_probe k world_unbound [ep_int_in] probe_env_ok).2.intf.minor = some 0) := by
  refine ⟨by decide, by decide, fun k => ?_⟩
  cases k <;> decide

/-! ## Round trip -/

/-- C3: the scenario of userApp.c on an echoing transport.  After a successful
attach (bulk endpoints with max packet 64) and a successful `drv_open`,
`drv_write` of the 20 bytes "The Eagle Has Landed" returns 20, and the
following `drv_read` with a 100 byte buffer, on a transport ready to complete
the inbound transfer with those 20 bytes, returns 0, makes no kernel call and
leaves the caller's buffer as it was: `bulk_in_urb` is still NULL, so the guard
at the top of `drv_read` returns before anything is submitted. -/
theorem drv_read_after_write_returns_zero :
    ∀ k : kref_flavour,
      (drv_open k (world_attached k) { private_data := false } 0 (-EACCES)).1 = 0 ∧
      (drv_open k (world_attached k) { private_data := false } 0 (-EACCES)).2.2.private_data
        = true ∧
      ∃ d : driver_private,
        (drv_open k (world_attached k) { private_data := false } 0 (-EACCES)).2.1.dev = some d ∧
        (drv_write d eagle 20 write_env_ok).retval = 20 ∧
        (drv_write d eagle 20 write_env_ok).dev.bulk_out_buffer = some eagle ∧
        drv_read (drv_write d eagle 20 write_env_ok).dev (List.replicate 100 0) 100
            (read_env_completing 0 20 eagle)
          = some { retval := 0, dev := (drv_write d eagle 20 write_env_ok).dev,
                   buffer := List.replicate 100 0, calls := [] } := by
  intro k
  cases k
  · exact ⟨by decide, by decide, _, rfl, by decide, by decide, by decide⟩
  · exact ⟨by decide, by decide, _, rfl, by decide, by decide, by decide⟩

/-! ## Open -/

/-- C4: on a published session (counter 0 after attach), when
`usb_autopm_get_interface` returns 0 (the token is granted), `drv_open` returns
`-ENODEV` and leaves the file's private data NULL, while the counter has been
changed (to 1 with the plain atomic counter) and the usage count of the
interface has been taken: the test `!usb_autopm_get_interface(interface)`
treats the success value as the failure. -/
theorem drv_open_rejects_granted_token :
    (∀ k : kref_flavour,
      (world_attached k).intf.intfdata = true ∧
      (world_attached k).intf.minor = some 0 ∧
      (world_attached k).dev.map (fun d => d.kref) = some 0 ∧
      (drv_open k (world_attached k) { private_data := false } 0 0).1 = -ENODEV ∧
      (drv_open k (world_attached k) { private_data := false } 0 0).2.2.private_data = false ∧
      (drv_open k (world_attached k) { private_data := false } 0 0).2.1.dev.map
        (fun d => d.kref) ≠ some 0 ∧
      (drv_open k (world_attached k) { private_data := false } 0 0).2.1.intf.pm_usage_cnt = 1) ∧
    (drv_open .atomic (world_attached .atomic) { private_data := false } 0 0).2.1.dev.map
      (fun d => d.kref) = some 1 := by
  refine ⟨fun k => ?_, by decide⟩
  cases k <;> decide

/-- C5: on a published session (counter 0 after attach), when
`usb_autopm_get_interface` fails with `-EACCES`, `drv_open` returns 0, stores
the session in the file's private data and leaves the counter changed (1 with
the plain atomic counter). -/
theorem drv_open_accepts_refused_token :
    (∀ k : kref_flavour,
      (world_attached k).intf.intfdata = true ∧
      (world_attached k).intf.minor = some 0 ∧
      (world_attached k).dev.map (fun d => d.kref) = some 0 ∧
      (drv_open k (world_attached k) { private_data := false } 0 (-EACCES)).1 = 0 ∧
      (drv_open k (world_attached k) { private_data := false } 0 (-EACCES)).2.2.private_data
        = true ∧
      (drv_open k (world_attached k) { private_data := false } 0 (-EACCES)).2.1.dev.map
        (fun d => d.kref) ≠ some 0) ∧
    (drv_open .atomic (world_attached .atomic) { private_data := false } 0 (-EACCES)).2.1.dev.map
      (fun d => d.kref) = some 1 := by
  refine ⟨fun k => ?_, by decide⟩
  cases k <;> decide

/-! ## Read: the statements behind the first test

The two evaluations below start from `dev_reading`, a structure whose
`bulk_in_urb` is set.  No session built by `drv_probe` is in that state (see
the section on the inbound URB pointer), so they describe the text of
`drv_read` after its first test, not a call the driver can receive. -/

/-- Behind the first test of `drv_read`: from `dev_reading`, a first `drv_read`
completes with status 0 and 20 bytes and returns 20; a second `drv_read` whose
transfer completes with status `-EPIPE` (nonzero, not one of the benign codes)
records the status in `bulk_in_errors` and returns 20 again, the byte count
left by the first read: `drv_read` never looks at `bulk_in_errors`. -/
theorem drv_read_returns_byte_count_on_failed_transfer :
    -EPIPE ≠ 0 ∧ -EPIPE ≠ -ENOENT ∧ -EPIPE ≠ -ECONNRESET ∧ -EPIPE ≠ -ESHUTDOWN ∧
    (drv_read dev_reading (List.replicate 100 0) 100 (read_env_completing 0 20 eagle)).map
        (fun r => r.retval) = some 20 ∧
    ((drv_read dev_reading (List.replicate 100 0) 100 (read_env_completing 0 20 eagle)).bind
        (fun r => drv_read r.dev (List.replicate 100 0) 100
          (read_env_completing (-EPIPE) 0 []))).map
        (fun r => (r.retval, r.dev.bulk_in_errors, r.dev.bulk_in_read_bytes))
      = some (20, -EPIPE, 20) := by
  decide

/-- Behind the first test of `drv_read`: from `dev_reading` (bulk-IN max packet
64), a first `drv_read` with count 64 completes with status 0 and 64 bytes and
returns 64; a second `drv_read` with count 10 submits a transfer of length
`min 64 10 = 10`, the transfer completes with status `-EPIPE` and no bytes, and
the call returns 64 and copies 64 bytes to the caller. -/
theorem drv_read_returns_more_than_submitted_length :
    (drv_read dev_reading (List.replicate 64 0) 64
        (read_env_completing 0 64 (List.replicate 64 1))).map (fun r => r.retval) = some 64 ∧
    ((drv_read dev_reading (List.replicate 64 0) 64
        (read_env_completing 0 64 (List.replicate 64 1))).bind
        (fun r => drv_read r.dev (List.replicate 10 0) 10
          (read_env_completing (-EPIPE) 0 []))).map (fun r => (r.retval, r.calls))
      = some (64, [kcall.usb_alloc_urb, kcall.kmalloc 64, kcall.usb_fill_bulk_urb true 0x81 10,
                   kcall.usb_submit_urb true 10, kcall.wait_for_completion_interruptible,
                   kcall.copy_to_user 64]) ∧
    ¬ ((64 : Int) ≤ min 64 10) := by
  decide

/-! ## Write -/

/-- C8: a `drv_write` call with `0 < count` (and `count` within `ssize_t`) in
which the URB allocation, the buffer allocation and the copy from the caller
succeed.  If `usb_submit_urb` returns 0 the call returns exactly `count`, does
not wait for a completion and does not release the transfer buffer.  If
`usb_submit_urb` returns a nonzero `e` the call returns `e` and has released
the buffer, of length `count`, exactly once, without waiting; a negative `e`
is never equal to `count`. -/
theorem drv_write_submission_outcome (dev : driver_private) (user_buffer : List Nat)
    (count : Nat) (env : write_env)
    (hcount : 0 < count) (hfit : count < 2 ^ 63)
    (hurb : env.usb_alloc_urb.isSome = true)
    (hbuf : env.usb_alloc_coherent_ok = true)
    (hcopy : env.copy_from_user_fails = false) :
    (env.usb_submit_urb_ret = 0 →
      (drv_write dev user_buffer count env).retval = (count : Int) ∧
      kcall.wait_for_completion_interruptible ∉ (drv_write dev user_buffer count env).calls ∧
      ∀ n, kcall.usb_free_coherent n ∉ (drv_write dev user_buffer count env).calls) ∧
    (env.usb_submit_urb_ret ≠ 0 →
      (drv_write dev user_buffer count env).retval = env.usb_submit_urb_ret ∧
      kcall.wait_for_completion_interruptible ∉ (drv_write dev user_buffer count env).calls ∧
      (drv_write dev user_buffer count env).calls.count (kcall.usb_free_coherent count) = 1 ∧
      (∀ n, kcall.usb_free_coherent n ∈ (drv_write dev user_buffer count env).calls → n = count) ∧
      (env.usb_submit_urb_ret < 0 →
        (drv_write dev user_buffer count env).retval ≠ (count : Int))) := by
  have hne : (count == 0) = false := by
    simp only [beq_eq_false_iff_ne]; omega
  have hnone : env.usb_alloc_urb.isNone = false := by
    cases h : env.usb_alloc_urb with
    | none => rw [h] at hurb; cases hurb
    | some u => rfl
  have hconv : ssize_t_of_size_t count = (count : Int) := by
    unfold ssize_t_of_size_t
    have h1 : count % 2 ^ 64 = count := Nat.mod_eq_of_lt (by omega)
    rw [h1, if_pos hfit]
  constructor
  · intro hacc
    simp [drv_write, hne, hnone, hbuf, hcopy, hacc, hconv]
  · intro hrej
    simp [drv_write, hne, hnone, hbuf, hcopy, hrej]
    intro hneg
    omega

/-- C8, witness: the 20 byte write of userApp.c, once accepted by the transport
and once rejected with `-ENODEV`. -/
theorem drv_write_submission_outcome_witness :
    (drv_write driver_private_zero eagle 20 write_env_ok).retval = 20 ∧
    (drv_write driver_private_zero eagle 20 write_env_reject).retval = -ENODEV ∧
    (drv_write driver_private_zero eagle 20 write_env_reject).calls.count
      (kcall.usb_free_coherent 20) = 1 :=
  ⟨((drv_write_submission_outcome driver_private_zero eagle 20 write_env_ok
        (by decide) (by decide) rfl rfl rfl).1 rfl).1,
   ((drv_write_submission_outcome driver_private_zero eagle 20 write_env_reject
        (by decide) (by decide) rfl rfl rfl).2 (by decide)).1,
   ((drv_write_submission_outcome driver_private_zero eagle 20 write_env_reject
        (by decide) (by decide) rfl rfl rfl).2 (by decide)).2.2.1⟩

/-! ## Session lifetime -/

/-- C9: after a successful attach the counter is 0 (`drv_probe` never
initialises it).  With no client (N = 0) the detach step leaves `usb_cleanup`
run zero times, under both counter implementations.  With one client (N = 1)
and the plain atomic counter, `usb_cleanup` has already run once after the
client's open and release, while the interface data still points to the
session and before any detach. -/
theorem usb_cleanup_not_run_once_at_last_release :
    (∀ k : kref_flavour,
      (drv_probe k world_unbound [ep_bulk_in, ep_bulk_out] probe_env_ok).1 = 0 ∧
      (world_attached k).dev.map (fun d => d.kref) = some 0 ∧
      (world_attached k).usb_cleanup_runs = 0 ∧
      (run k { w := world_attached k, files := no_files } [op.disconnect]).w.usb_cleanup_runs
        = 0) ∧
    (run .atomic { w := world_attached .atomic, files := no_files }
        [op.file (.fop_open 0 0 (-EACCES)), op.file (.fop_release 0)]).w.usb_cleanup_runs = 1 ∧
    (run .atomic { w := world_attached .atomic, files := no_files }
        [op.file (.fop_open 0 0 (-EACCES)), op.file (.fop_release 0)]).w.intf.intfdata
      = true := by
  refine ⟨fun k => ?_, by decide, by decide⟩
  cases k <;> decide

/-- C10: after `drv_disconnect` has run, and after any further sequence of
opens and releases, every `drv_open` (for any minor and any outcome of
`usb_autopm_get_interface`) returns `-ENODEV` and leaves the world, the
counter included, and the file unchanged. -/
theorem drv_open_after_disconnect_fails (k : kref_flavour) (w : world) (files : Nat → file)
    (later : List file_op) (fd subminor : Nat) (autopm_ret : Int) :
    drv_open k (run_file_ops k { w := drv_disconnect k w, files := files } later).w
        ((run_file_ops k { w := drv_disconnect k w, files := files } later).files fd)
        subminor autopm_ret
      = (-ENODEV, (run_file_ops k { w := drv_disconnect k w, files := files } later).w,
         (run_file_ops k { w := drv_disconnect k w, files := files } later).files fd) := by
  apply drv_open_unregistered
  rw [run_file_ops_minor]
  rfl

/-! ## Zero-length requests -/

/-- C11: for every session state and every behaviour of the kernel services,
`drv_read` with count 0 returns 0, makes no kernel call (no URB allocation, no
buffer allocation, no submission) and leaves the session and the caller's
buffer as they were; `drv_write` with count 0 returns 0, makes no kernel call,
and changes nothing in the session but `bulk_out_write_bytes`, which it sets
to the count, 0. -/
theorem zero_length_requests_make_no_kernel_call (dev : driver_private) (buffer : List Nat)
    (user_buffer : List Nat) (renv : read_env) (wenv : write_env) :
    drv_read dev buffer 0 renv
      = some { retval := 0, dev := dev, buffer := buffer, calls := [] } ∧
    drv_write dev user_buffer 0 wenv
      = { retval := 0, dev := { dev with bulk_out_write_bytes := 0 }, calls := [] } := by
  constructor
  · unfold drv_read
    simp
  · rfl

/-! ## Direction independence -/

/-- The function `drv_write` leaves the read-direction fields as they were. -/
theorem drv_write_keeps_read_fields (dev : driver_private) (user_buffer : List Nat)
    (count : Nat) (env : write_env) :
    (drv_write dev user_buffer count env).dev.bulk_in_urb = dev.bulk_in_urb ∧
    (drv_write dev user_buffer count env).dev.bulk_in_buffer = dev.bulk_in_buffer ∧
    (drv_write dev user_buffer count env).dev.bulk_in_max_size = dev.bulk_in_max_size ∧
    (drv_write dev user_buffer count env).dev.bulk_in_read_bytes = dev.bulk_in_read_bytes ∧
    (drv_write dev user_buffer count env).dev.bulk_in_errors = dev.bulk_in_errors := by
  unfold drv_write
  simp only []
  split_ifs <;> exact ⟨rfl, rfl, rfl, rfl, rfl⟩

/-- The function `drv_read_bulk_callback` and the transport's delivery leave
the write-direction fields as they were. -/
theorem drv_read_bulk_callback_keeps_write_fields (dev : driver_private) (c : urb_completion) :
    (drv_read_bulk_callback (transport_receive dev c.data) c.status c.actual_length).bulk_out_urb
      = dev.bulk_out_urb ∧
    (drv_read_bulk_callback (transport_receive dev c.data) c.status c.actual_length).bulk_out_buffer
      = dev.bulk_out_buffer ∧
    (drv_read_bulk_callback (transport_receive dev c.data) c.status
      c.actual_length).bulk_out_write_bytes = dev.bulk_out_write_bytes ∧
    (drv_read_bulk_callback (transport_receive dev c.data) c.status c.actual_length).bulk_out_errors
      = dev.bulk_out_errors := by
  unfold drv_read_bulk_callback transport_receive
  simp only []
  split_ifs <;> exact ⟨rfl, rfl, rfl, rfl⟩

/-- The function `drv_read`, the completion delivered while it waits included,
leaves the write-direction fields as they were. -/
theorem drv_read_keeps_write_fields (dev : driver_private) (buffer : List Nat) (count : Nat)
    (env : read_env) (r : read_result) (h : drv_read dev buffer count env = some r) :
    r.dev.bulk_out_urb = dev.bulk_out_urb ∧
    r.dev.bulk_out_buffer = dev.bulk_out_buffer ∧
    r.dev.bulk_out_write_bytes = dev.bulk_out_write_bytes ∧
    r.dev.bulk_out_errors = dev.bulk_out_errors := by
  unfold drv_read at h
  by_cases hg : (dev.bulk_in_urb.isNone || count == 0) = true
  · rw [if_pos hg] at h
    cases h
    exact ⟨rfl, rfl, rfl, rfl⟩
  · rw [if_neg hg] at h
    by_cases ha : env.usb_alloc_urb.isNone = true
    · simp only [ha, if_true, Option.some.injEq] at h
      subst h
      exact ⟨rfl, rfl, rfl, rfl⟩
    · simp only [ha] at h
      by_cases hs : env.usb_submit_urb_ret = 0
      · cases hc : env.completion with
        | none =>
          simp only [hs, hc, if_true] at h
          split_ifs at h <;> cases h <;> exact ⟨rfl, rfl, rfl, rfl⟩
        | some c =>
          simp only [hs, hc, if_true] at h
          split_ifs at h <;> cases h <;>
            first
              | exact ⟨rfl, rfl, rfl, rfl⟩
              | exact drv_read_bulk_callback_keeps_write_fields _ c
      · simp only [hs, if_false] at h
        split_ifs at h <;> cases h <;> exact ⟨rfl, rfl, rfl, rfl⟩

/-- C12: on the session of the attached device, after an accepted 20 byte
`drv_write`, the completion callback `drv_write_bulk_callback` with status
`-EPIPE` changes the read-direction field `bulk_in_errors` from 0 to `-EPIPE`
and leaves `bulk_out_errors` at 0: the callback assigns `dev->bulk_in_errors`. -/
theorem drv_write_bulk_callback_sets_bulk_in_errors :
    (world_attached .atomic).dev.map
        (fun d => ((drv_write d eagle 20 write_env_ok).retval,
                   (drv_write d eagle 20 write_env_ok).dev.bulk_in_errors,
                   (drv_write_bulk_callback (drv_write d eagle 20 write_env_ok).dev
                      (-EPIPE) 20).1.bulk_in_errors,
                   (drv_write_bulk_callback (drv_write d eagle 20 write_env_ok).dev
                      (-EPIPE) 20).1.bulk_out_errors))
      = some (20, 0, -EPIPE, 0) := by
  decide

/-! ## The inbound URB pointer -/

theorem drv_probe_out_bulk_in_urb (endpoint : usb_endpoint_descriptor) (dev : driver_private) :
    (drv_probe_out endpoint dev).bulk_in_urb = dev.bulk_in_urb := by
  unfold drv_probe_out
  split <;> rfl

theorem drv_probe_loop_bulk_in_urb (kmalloc_ok : Nat → Bool)
    (endpoints : List usb_endpoint_descriptor) :
    ∀ (ii : Nat) (dev r : driver_private),
      (drv_probe_loop kmalloc_ok ii endpoints dev = .ok r ∨
        drv_probe_loop kmalloc_ok ii endpoints dev = .error r) →
      r.bulk_in_urb = dev.bulk_in_urb := by
  induction endpoints with
  | nil =>
    intro ii dev r h
    rcases h with h | h
    · simp only [drv_probe_loop, Except.ok.injEq] at h
      rw [h]
    · simp [drv_probe_loop] at h
  | cons endpoint rest ih =>
    intro ii dev r h
    unfold drv_probe_loop at h
    by_cases hin : (!usb_endpoint_is_bulk_in endpoint) = true
    · rw [if_pos hin] at h
      by_cases hk : kmalloc_ok ii = true
      · simp only [hk, if_true] at h
        rw [ih _ _ _ h, drv_probe_out_bulk_in_urb]
      · simp only [hk] at h
        rcases h with h | h
        · simp at h
        · simp only [Bool.false_eq_true, if_false, Except.error.injEq] at h
          rw [← h]
    · rw [if_neg hin] at h
      rw [ih _ _ _ h, drv_probe_out_bulk_in_urb]

theorem kref_put_usb_cleanup_urb_null (k : kref_flavour) (w : world)
    (h : session_urb_null w = true) : session_urb_null (kref_put_usb_cleanup k w) = true := by
  unfold kref_put_usb_cleanup
  unfold session_urb_null at h
  cases hd : w.dev with
  | none => simp [session_urb_null, hd]
  | some d =>
    rw [hd] at h
    simpa [session_urb_null] using h

theorem drv_probe_urb_null (k : kref_flavour) (endpoints : List usb_endpoint_descriptor)
    (env : probe_env) : session_urb_null (drv_probe k world_unbound endpoints env).2 = true := by
  unfold drv_probe
  by_cases hz : (!env.kzalloc_ok) = true
  · rw [if_pos hz]
    rfl
  · rw [if_neg hz]
    simp only []
    cases hl : drv_probe_loop env.kmalloc_ok 0 endpoints
        { driver_private_zero with usb_dev := true, usb_intf := true } with
    | error dev =>
      have hu := drv_probe_loop_bulk_in_urb env.kmalloc_ok endpoints 0 _ dev (Or.inr hl)
      dsimp only
      refine kref_put_usb_cleanup_urb_null k _ ?_
      simp [session_urb_null, hu, driver_private_zero]
    | ok dev =>
      have hu := drv_probe_loop_bulk_in_urb env.kmalloc_ok endpoints 0 _ dev (Or.inl hl)
      have hn : dev.bulk_in_urb.isNone = true := by
        simp [hu, driver_private_zero]
      simp only []
      split_ifs
      · dsimp only
        refine kref_put_usb_cleanup_urb_null k _ ?_
        simpa [session_urb_null] using hn
      · dsimp only
        refine kref_put_usb_cleanup_urb_null k _ ?_
        simpa [session_urb_null] using hn
      · simpa [session_urb_null] using hn

theorem drv_open_urb_null (k : kref_flavour) (w : world) (f : file) (subminor : Nat)
    (autopm_ret : Int) (h : session_urb_null w = true) :
    session_urb_null (drv_open k w f subminor autopm_ret).2.1 = true := by
  unfold drv_open
  split
  · exact h
  · unfold usb_get_intfdata
    by_cases hi : w.intf.intfdata = true
    · rw [if_pos hi]
      cases hd : w.dev with
      | none => simp [session_urb_null, hd]
      | some d =>
        have hn : d.bulk_in_urb.isNone = true := by
          simpa [session_urb_null, hd] using h
        by_cases ha : autopm_ret = 0 <;> simp [ha, session_urb_null, hn]
    · rw [if_neg hi]
      exact h

theorem drv_release_urb_null (k : kref_flavour) (w : world) (f : file)
    (h : session_urb_null w = true) : session_urb_null (drv_release k w f).2.1 = true := by
  unfold drv_release
  split
  · exact h
  · cases hd : w.dev with
    | none => simp [session_urb_null, hd]
    | some d =>
      apply kref_put_usb_cleanup_urb_null
      split <;> simpa [session_urb_null, hd] using h

theorem drv_disconnect_urb_null (k : kref_flavour) (w : world)
    (h : session_urb_null w = true) : session_urb_null (drv_disconnect k w) = true := by
  unfold drv_disconnect
  have h1 : session_urb_null { w with intf := { w.intf with intfdata := false } } = true := h
  have h2 : session_urb_null
      (if w.intf.intfdata then
        kref_put_usb_cleanup k { w with intf := { w.intf with intfdata := false } }
       else { w with intf := { w.intf with intfdata := false } }) = true := by
    split
    · exact kref_put_usb_cleanup_urb_null k _ h1
    · exact h1
  exact h2

/-- With a NULL `bulk_in_urb` the function `drv_read` returns 0 at its first
test, for every count. -/
theorem drv_read_of_urb_null (dev : driver_private) (buffer : List Nat) (count : Nat)
    (env : read_env) (h : dev.bulk_in_urb = none) :
    drv_read dev buffer count env
      = some { retval := 0, dev := dev, buffer := buffer, calls := [] } := by
  unfold drv_read
  simp [h]

theorem drv_write_urb_null (d : driver_private) (user_buffer : List Nat) (count : Nat)
    (env : write_env) (h : d.bulk_in_urb.isNone = true) :
    (drv_write d user_buffer count env).dev.bulk_in_urb.isNone = true := by
  rw [(drv_write_keeps_read_fields d user_buffer count env).1]
  exact h

theorem step_urb_null (k : kref_flavour) (s : system) (o : op)
    (h : session_urb_null s.w = true) : session_urb_null (step k s o).w = true := by
  cases o with
  | file o =>
    cases o with
    | fop_open fd subminor autopm_ret => exact drv_open_urb_null k s.w _ subminor autopm_ret h
    | fop_release fd => exact drv_release_urb_null k s.w _ h
  | disconnect => exact drv_disconnect_urb_null k s.w h

theorem step_session_urb_null (k : kref_flavour) (s : system) (o : session_op)
    (h : session_urb_null s.w = true) : session_urb_null (step_session k s o).w = true := by
  cases o with
  | sop_step o => exact step_urb_null k s o h
  | sop_read fd buffer count env =>
    simp only [step_session, file_session]
    by_cases hp : (s.files fd).private_data = true
    · cases hd : s.w.dev with
      | none =>
        simp only [hp, hd, if_true]
        exact h
      | some d =>
        have hn : d.bulk_in_urb = none := by
          simpa [session_urb_null, hd] using h
        simp only [hp, hd, if_true, drv_read_of_urb_null d buffer count env hn]
        simp [session_urb_null, hn]
    · simp only [hp]
      exact h
  | sop_write fd user_buffer count env =>
    simp only [step_session, file_session]
    by_cases hp : (s.files fd).private_data = true
    · cases hd : s.w.dev with
      | none =>
        simp only [hp, hd, if_true]
        exact h
      | some d =>
        have hn : d.bulk_in_urb.isNone = true := by
          simpa [session_urb_null, hd] using h
        simp only [hp, hd, if_true]
        simpa [session_urb_null] using drv_write_urb_null d user_buffer count env hn
    · simp only [hp]
      exact h
  | sop_read_callback c =>
    simp only [step_session]
    cases hd : s.w.dev with
    | none => exact h
    | some d =>
      have hn : d.bulk_in_urb.isNone = true := by
        simpa [session_urb_null, hd] using h
      simp only [session_urb_null, drv_read_bulk_callback, transport_receive]
      split_ifs <;> exact hn
  | sop_write_callback status transfer_buffer_length =>
    simp only [step_session]
    cases hd : s.w.dev with
    | none => exact h
    | some d =>
      have hn : d.bulk_in_urb.isNone = true := by
        simpa [session_urb_null, hd] using h
      simp only [session_urb_null, drv_write_bulk_callback]
      split_ifs <;> exact hn

theorem run_session_urb_null (k : kref_flavour) (ops : List session_op) (s : system)
    (h : session_urb_null s.w = true) : session_urb_null (run_session k s ops).w = true := by
  induction ops generalizing s with
  | nil => exact h
  | cons o rest ih => exact ih (step_session k s o) (step_session_urb_null k s o h)

/-- C13: take any attach (`drv_probe` on an unbound interface, any endpoint
list, any behaviour of the allocators and of `usb_register_dev`) and any later
sequence of opens, releases, detach, reads, writes and completion callbacks.
The session object `d` found afterwards has a NULL `bulk_in_urb`, and every
`drv_read` on it, for every count, caller buffer and transport behaviour,
returns 0 without any kernel call, so without submitting a transfer, and
leaves the session and the buffer unchanged. -/
theorem bulk_in_urb_null_on_reachable_sessions (k : kref_flavour)
    (endpoints : List usb_endpoint_descriptor) (env : probe_env) (ops : List session_op)
    (d : driver_private)
    (h : (run_session k { w := (drv_probe k world_unbound endpoints env).2, files := no_files }
            ops).w.dev = some d) :
    d.bulk_in_urb = none ∧
    ∀ (buffer : List Nat) (count : Nat) (renv : read_env),
      drv_read d buffer count renv
        = some { retval := 0, dev := d, buffer := buffer, calls := [] } := by
  have hinv := run_session_urb_null k ops
    { w := (drv_probe k world_unbound endpoints env).2, files := no_files }
    (drv_probe_urb_null k endpoints env)
  have hn : d.bulk_in_urb = none := by
    simpa [session_urb_null, h] using hinv
  exact ⟨hn, fun buffer count renv => drv_read_of_urb_null d buffer count renv hn⟩

/-- C13, witness: after the client session `session_ops_demo` on the attached
device (open, write, failed write completion, read, stray inbound completion,
release) the session object is `dev_after_demo`, its `bulk_in_urb` is NULL,
and a `drv_read` of 100 bytes on a transport ready to deliver 20 bytes returns
0 without any kernel call. -/
theorem bulk_in_urb_null_on_reachable_sessions_witness :
    (run_session .atomic
        { w := (drv_probe .atomic world_unbound [ep_bulk_in, ep_bulk_out] probe_env_ok).2,
          files := no_files }
        session_ops_demo).w.dev = some dev_after_demo ∧
    dev_after_demo.bulk_in_urb = none ∧
    drv_read dev_after_demo (List.replicate 100 0) 100 (read_env_completing 0 20 eagle)
      = some { retval := 0, dev := dev_after_demo, buffer := List.replicate 100 0, calls := [] } :=
  ⟨by decide,
   (bulk_in_urb_null_on_reachable_sessions .atomic [ep_bulk_in, ep_bulk_out] probe_env_ok
      session_ops_demo dev_after_demo (by decide)).1,
   (bulk_in_urb_null_on_reachable_sessions .atomic [ep_bulk_in, ep_bulk_out] probe_env_ok
      session_ops_demo dev_after_demo (by decide)).2 _ _ _⟩

/-! ## Length cap of a read -/

end UsbFlashDrv
